import Mathlib

/-!
Verification of the console watchdog script (watchdog-console.py).

The script polls Windows consoles, discovers Gemini CLI sessions, classifies
each session into a small state machine from its window title and the tail of
its screen buffer, and raises desktop notifications on selected transitions.

The definitions below are a shallow embedding of the script: OS effects
(console attach and detach, screen reads, foreground queries) are represented
by explicit environment records and operation traces, and the inline loop
bodies become pure functions.
-/

namespace Watchdog

/-- Substring test, the model of the Python operator `sub in s`:
the character sequence of `pat` occurs contiguously inside that of `s`. -/
def strContains (s pat : String) : Bool :=
  decide (pat.data <:+: s.data)

/-- Model of Python `str.lower()`: lowercase every character. -/
def strLower (s : String) : String :=
  String.mk (s.data.map Char.toLower)

/-- Model of Python `str.strip()`: drop leading and trailing whitespace. -/
def pyStrip (s : String) : String :=
  String.mk (((s.data.dropWhile Char.isWhitespace).reverse.dropWhile Char.isWhitespace).reverse)

/-- The five session states stored in `targets[pid].state`
(the script stores them as the corresponding string literals). -/
inductive CState where
  | Unknown
  | Working
  | AwaitingInput
  | HighDemand
  | Ready
deriving DecidableEq

/-- The three notifications the classification step can raise
(identified by their message text in the script). -/
inductive Notif where
  | actionRequired
  | highDemand
  | taskFinished
deriving DecidableEq

/-- Outcome of one classification of one target: the state stored back into
the registry, the notifications raised (calls to show_notification), and the
number of state overwrites performed (assignments to `targets[pid].state`). -/
structure ClassifyResult where
  state : CState
  notifs : List Notif
  writes : Nat
deriving DecidableEq

/-- AwaitingInput markers, tested against the stripped screen content
(lines 209 to 211 of the script). -/
def hasAwaitingMarker (content : String) : Bool :=
  let clean_content := pyStrip content
  strContains clean_content "Interactive shell awaiting input" ||
  strContains clean_content "Action Required" ||
  strContains clean_content "Press tab to focus shell"

/-- HighDemand markers: a retry phrase together with a halt phrase,
both in the stripped screen content (line 218 of the script). -/
def hasHighDemandMarker (content : String) : Bool :=
  let clean_content := pyStrip content
  strContains clean_content "Keep trying" && strContains clean_content "Stop"

/-- Working markers, tested against the raw title (line 224 of the script). -/
def hasWorkingTitle (title : String) : Bool :=
  strContains title "Working" || strContains title "✦"

/-- Ready markers, tested against the raw title (line 229 of the script). -/
def hasReadyTitle (title : String) : Bool :=
  strContains title "Ready" || strContains title "◇"

/-- One classification of one target, lines 205 to 232 of the script:
the `if content:` guard followed by the elif chain, given the fresh
`(title, content)` read and the stored state `last`. -/
def classifyStep (title content : String) (last : CState) : ClassifyResult :=
  if content = "" then ⟨last, [], 0⟩
  else if hasAwaitingMarker content then
    if last ≠ CState.AwaitingInput then ⟨CState.AwaitingInput, [Notif.actionRequired], 1⟩
    else ⟨last, [], 0⟩
  else if hasHighDemandMarker content then
    if last ≠ CState.HighDemand then ⟨CState.HighDemand, [Notif.highDemand], 1⟩
    else ⟨last, [], 0⟩
  else if hasWorkingTitle title then
    if last ≠ CState.Working then ⟨CState.Working, [], 1⟩
    else ⟨last, [], 0⟩
  else if hasReadyTitle title then
    if last = CState.Working ∨ last = CState.AwaitingInput then
      ⟨CState.Ready, [Notif.taskFinished], 1⟩
    else ⟨last, [], 0⟩
  else ⟨last, [], 0⟩

/-- Console attach and detach calls issued by read_console_buffer, in order.
A failed AttachConsole call is recorded as `attachFailed`. -/
inductive ConsoleOp where
  | free
  | attachSuccess (pid : Int)
  | attachFailed (pid : Int)
deriving DecidableEq

/-- Environment record for one read_console_buffer call: which AttachConsole
calls succeed, and what the target console reports once attached.
`buffer` is the screen buffer as a flat row-major character array. -/
structure ConsoleOS where
  attachOk : Int → Bool
  title : String
  hwnd : Nat
  infoOk : Bool
  width : Int
  height : Int
  readOk : Bool
  buffer : List Char

/-- The fixed tail budget, `read_len = 8000` (line 110 of the script). -/
def read_len : Int := 8000

/-- `start_idx = max(0, (width * height) - read_len)` (line 112). -/
def start_idx (width height : Int) : Int :=
  max 0 (width * height - read_len)

/-- `start_y = start_idx // width` (line 113). Python floor division with a
positive divisor and a nonnegative dividend coincides with Int division. -/
def start_y (width height : Int) : Int :=
  start_idx width height / width

/-- `start_x = start_idx % width` (line 114). -/
def start_x (width height : Int) : Int :=
  start_idx width height % width

/-- read_console_buffer (lines 83 to 137): frees the own console, attaches to
the target, reads the title, the console window handle and the screen tail,
then restores the own console; on attach failure it restores the own console
and reports `(none, none, none)`. The value is the returned triple together
with the trace of console attach and detach calls. The read from coordinate
`(start_x, start_y)` is modelled as reading `read_len` cells from the linear
offset `start_y * width + start_x` of the flat buffer. Re-attaching to the
parent console, `AttachConsole(-1)`, is modelled as succeeding, since the
watchdog held a console before releasing it. -/
def read_console_buffer (os : ConsoleOS) (pid : Int) :
    (Option String × Option String × Option Nat) × List ConsoleOp :=
  if os.attachOk pid then
    let window_title := os.title
    let hwnd := os.hwnd
    let content : String :=
      if os.infoOk then
        if os.readOk then
          String.mk ((os.buffer.drop
            (start_y os.width os.height * os.width + start_x os.width os.height).toNat).take
            read_len.toNat)
        else ""
      else ""
    ((some window_title, some content, some hwnd),
      [ConsoleOp.free, ConsoleOp.attachSuccess pid, ConsoleOp.free, ConsoleOp.attachSuccess (-1)])
  else
    ((none, none, none),
      [ConsoleOp.free, ConsoleOp.attachFailed pid, ConsoleOp.attachSuccess (-1)])

/-- Which console the process is attached to after one operation:
`none` means detached; `some c` means attached to console `c`, where
`-1` stands for the original console of the caller. -/
def consoleStep (s : Option Int) : ConsoleOp → Option Int
  | ConsoleOp.free => none
  | ConsoleOp.attachSuccess p => some p
  | ConsoleOp.attachFailed _ => s

/-- Console attachment after running a trace, starting attached to the
original console of the caller. -/
def consoleAfter (ops : List ConsoleOp) : Option Int :=
  ops.foldl consoleStep (some (-1))

/-- Environment for the foreground window queries used by is_window_active:
the foreground window handle, window titles, and minimized status. -/
structure WinEnv where
  foreground : Nat
  windowTitle : Nat → String
  isIconic : Nat → Bool

/-- is_window_active (lines 36 to 61): false for a null handle; true when the
handle is the foreground window and not minimized; otherwise true exactly when
the title of the actual foreground window carries a CLI marker and that window
is not minimized. Handle value 0 models a null handle. -/
def is_window_active (env : WinEnv) (hwnd : Nat) : Bool :=
  if hwnd = 0 then false
  else if hwnd = env.foreground then !(env.isIconic hwnd)
  else
    let fg_title := strLower (env.windowTitle env.foreground)
    if strContains fg_title "gemini" || strContains fg_title "◇" || strContains fg_title "✦" then
      !(env.isIconic env.foreground)
    else false

/-- Observable outcome of show_notification: whether delivery was delegated to
the external notification collaborator, and whether the event was logged. -/
structure NotifyOutcome where
  delegated : Bool
  logged : Bool
deriving DecidableEq

/-- show_notification (lines 63 to 81): returns immediately when the handle is
truthy and its window is active; otherwise logs the event and delegates
delivery (a delivery failure is caught, so delegation is always attempted). -/
def show_notification (env : WinEnv) (hwnd : Nat) : NotifyOutcome :=
  if hwnd != 0 && is_window_active env hwnd then ⟨false, false⟩
  else ⟨true, true⟩

/-- One discovery candidate of step 3 of the main loop: its pid and the triple
returned by read_console_buffer for it. `hwnd = none` models a failed read
(value None); `hwnd = some 0` models GetConsoleWindow reporting no window. -/
structure Candidate where
  pid : Nat
  title : Option String
  content : Option String
  hwnd : Option Nat
deriving DecidableEq

/-- The registry value stored per pid: `{ state: ..., hwnd: ... }`
(line 192 of the script). -/
structure TargetInfo where
  state : CState
  hwnd : Option Nat
deriving DecidableEq

/-- Python truthiness of a console handle value: None and 0 are falsy. -/
def hwndTruthy : Option Nat → Bool
  | none => false
  | some h => h != 0

/-- `tracked_hwnds` (line 170): the handles of current targets whose stored
handle is truthy. -/
def tracked_hwnds (targets : List (Nat × TargetInfo)) : List (Option Nat) :=
  (targets.map (fun t => t.2.hwnd)).filter hwndTruthy

/-- The CLI marker test applied to a candidate title (lines 184 to 190):
lowercased substring markers plus two raw symbol markers. -/
def titleMatches (title : String) : Bool :=
  let title_lower := strLower title
  strContains title_lower "gemini" ||
  strContains title_lower "gemini-cli" ||
  strContains title_lower "dist\\index.js" ||
  strContains title "◇" ||
  strContains title "✦"

/-- The promotion decision for one candidate (lines 176 to 193): skip when the
handle is truthy and already tracked; otherwise promote exactly when the title
is readable, nonempty and carries a CLI marker. A candidate with `title = none`
raises on `title.lower()` and the exception handler drops it. The screen
content of the candidate is never consulted. -/
def discoverStep (c : Candidate) (tracked : List (Option Nat)) : Bool :=
  if hwndTruthy c.hwnd && tracked.contains c.hwnd then false
  else
    match c.title with
    | none => false
    | some t => (!(t == "")) && titleMatches t

/-- The discovery loop over the candidate list (step 3 of the main loop),
threading the mutable `tracked_hwnds` set: a promoted candidate is inserted in
state Unknown and its handle is added to the set unconditionally (line 193).
The own pid of the watchdog is skipped (line 174). -/
def discoverLoop (selfPid : Nat) :
    List Candidate → List (Nat × TargetInfo) → List (Option Nat) → List (Nat × TargetInfo)
  | [], targets, _ => targets
  | c :: rest, targets, tracked =>
    if c.pid = selfPid then
      discoverLoop selfPid rest targets tracked
    else if discoverStep c tracked then
      discoverLoop selfPid rest (targets ++ [(c.pid, ⟨CState.Unknown, c.hwnd⟩)])
        (c.hwnd :: tracked)
    else
      discoverLoop selfPid rest targets tracked

/-- One full discovery pass: run the loop with the tracked set initialized
from the current registry (line 170). -/
def discoverPass (selfPid : Nat) (targets : List (Nat × TargetInfo))
    (cands : List Candidate) : List (Nat × TargetInfo) :=
  discoverLoop selfPid cands targets (tracked_hwnds targets)

/-- A string carrying an AwaitingInput marker is nonempty. -/
theorem hasAwaitingMarker_ne_empty {content : String}
    (h : hasAwaitingMarker content = true) : content ≠ "" := by
  intro he
  subst he
  exact absurd h (by decide)

/-- A string carrying the HighDemand marker pair is nonempty. -/
theorem hasHighDemandMarker_ne_empty {content : String}
    (h : hasHighDemandMarker content = true) : content ≠ "" := by
  intro he
  subst he
  exact absurd h (by decide)

/-- C1: when the screen tail carries an AwaitingInput marker and the title
carries a Working marker, the classification of any current state yields
AwaitingInput and never Working: the AwaitingInput rule precedes the Working
rule and the first matching rule wins. -/
theorem awaiting_beats_working (title content : String) (last : CState)
    (hA : hasAwaitingMarker content = true) (hW : hasWorkingTitle title = true) :
    (classifyStep title content last).state = CState.AwaitingInput ∧
    (classifyStep title content last).state ≠ CState.Working := by
  have hstate : (classifyStep title content last).state = CState.AwaitingInput := by
    unfold classifyStep
    rw [if_neg (hasAwaitingMarker_ne_empty hA), if_pos hA]
    by_cases hl : last = CState.AwaitingInput
    · rw [if_neg (fun hn : last ≠ CState.AwaitingInput => hn hl)]
      exact hl
    · rw [if_pos hl]
  exact ⟨hstate, by rw [hstate]; exact fun h => by cases h⟩

theorem awaiting_beats_working_witness :
    hasAwaitingMarker "Action Required" = true ∧ hasWorkingTitle "✦ Working" = true ∧
    (classifyStep "✦ Working" "Action Required" CState.Working).state = CState.AwaitingInput :=
  ⟨by decide, by decide,
    (awaiting_beats_working "✦ Working" "Action Required" CState.Working
      (by decide) (by decide)).1⟩

/-- C3 counterexample: with empty content and the title carrying a Working
marker, the Working title rule is not evaluated and the state stays Unknown,
against the claim that title rules still run and can change the state. -/
theorem title_rules_skipped_on_empty_content_cex :
    hasWorkingTitle "Working" = true ∧
    classifyStep "Working" "" CState.Unknown = ⟨CState.Unknown, [], 0⟩ ∧
    (classifyStep "Working" "" CState.Unknown).state ≠ CState.Working := by decide

/-- C3 amended: when the read content is empty, the whole classification block
is skipped: no rule is evaluated, no notification is raised and the state is
left unchanged, even when the title carries a Working or Ready marker. -/
theorem empty_content_skips_classification (title : String) (last : CState) :
    classifyStep title "" last = ⟨last, [], 0⟩ := by
  unfold classifyStep
  rw [if_pos rfl]

/-- C5: with a Ready marker in the title, no earlier rule matching and content
nonempty, the classifier transitions to Ready with a Task Finished
notification exactly from Working or AwaitingInput; from Unknown, Ready or
HighDemand nothing happens. -/
theorem ready_transition_policy (title content : String) (last : CState)
    (hne : content ≠ "")
    (hA : hasAwaitingMarker content = false) (hH : hasHighDemandMarker content = false)
    (hW : hasWorkingTitle title = false) (hR : hasReadyTitle title = true) :
    ((last = CState.Working ∨ last = CState.AwaitingInput) →
      classifyStep title content last = ⟨CState.Ready, [Notif.taskFinished], 1⟩) ∧
    ((last = CState.Unknown ∨ last = CState.Ready ∨ last = CState.HighDemand) →
      classifyStep title content last = ⟨last, [], 0⟩) := by
  unfold classifyStep
  rw [if_neg hne, if_neg (by simp [hA]), if_neg (by simp [hH]), if_neg (by simp [hW]),
    if_pos hR]
  constructor
  · intro h
    rw [if_pos h]
  · intro h
    have hn : ¬(last = CState.Working ∨ last = CState.AwaitingInput) := by
      rcases h with h | h | h <;> subst h <;> rintro (hx | hx) <;> cases hx
    rw [if_neg hn]

theorem ready_transition_policy_witness :
    (("output" : String) ≠ "" ∧ hasAwaitingMarker "output" = false ∧
      hasHighDemandMarker "output" = false ∧ hasWorkingTitle "◇ Ready" = false ∧
      hasReadyTitle "◇ Ready" = true) ∧
    classifyStep "◇ Ready" "output" CState.Working = ⟨CState.Ready, [Notif.taskFinished], 1⟩ :=
  ⟨⟨by decide, by decide, by decide, by decide, by decide⟩,
    (ready_transition_policy "◇ Ready" "output" CState.Working
      (by decide) (by decide) (by decide) (by decide) (by decide)).1 (Or.inl rfl)⟩

/-- C6: classification is idempotent for notifications: a target already in
AwaitingInput re-reading a tail that still carries an AwaitingInput marker
gets no notification and no state change; likewise a target already in
HighDemand whose persisting qualifying text (the HighDemand marker pair
without an overriding AwaitingInput marker) is read again. -/
theorem no_duplicate_notifications (title content : String) :
    (hasAwaitingMarker content = true →
      classifyStep title content CState.AwaitingInput = ⟨CState.AwaitingInput, [], 0⟩) ∧
    (hasAwaitingMarker content = false → hasHighDemandMarker content = true →
      classifyStep title content CState.HighDemand = ⟨CState.HighDemand, [], 0⟩) := by
  constructor
  · intro hA
    unfold classifyStep
    rw [if_neg (hasAwaitingMarker_ne_empty hA), if_pos hA,
      if_neg (fun hn : CState.AwaitingInput ≠ CState.AwaitingInput => hn rfl)]
  · intro hA hH
    unfold classifyStep
    rw [if_neg (hasHighDemandMarker_ne_empty hH), if_neg (by simp [hA]), if_pos hH,
      if_neg (fun hn : CState.HighDemand ≠ CState.HighDemand => hn rfl)]

theorem no_duplicate_notifications_witness :
    hasAwaitingMarker "Action Required" = true ∧
    classifyStep "t" "Action Required" CState.AwaitingInput = ⟨CState.AwaitingInput, [], 0⟩ :=
  ⟨by decide, (no_duplicate_notifications "t" "Action Required").1 (by decide)⟩

/-- C10: in one classification of one target, at most one rule fires: at most
one notification, at most one state overwrite, and every notification
co-occurs with a state change in the same branch. -/
theorem at_most_one_rule_fires (title content : String) (last : CState) :
    (classifyStep title content last).notifs.length ≤ 1 ∧
    (classifyStep title content last).writes ≤ 1 ∧
    ((classifyStep title content last).notifs ≠ [] →
      (classifyStep title content last).state ≠ last ∧
      (classifyStep title content last).writes = 1) := by
  cases last <;> (unfold classifyStep; repeat' split) <;> simp_all

theorem at_most_one_rule_fires_witness :
    (classifyStep "t" "Action Required" CState.Unknown).notifs ≠ [] ∧
    (classifyStep "t" "Action Required" CState.Unknown).state ≠ CState.Unknown ∧
    (classifyStep "t" "Action Required" CState.Unknown).writes = 1 :=
  ⟨by decide,
    ((at_most_one_rule_fires "t" "Action Required" CState.Unknown).2.2 (by decide)).1,
    ((at_most_one_rule_fires "t" "Action Required" CState.Unknown).2.2 (by decide)).2⟩

/-- C2: every call to read_console_buffer ends attached to the original
console of the caller: the trace leaves the attachment state restored, the
last console call on every path is the restoring attach, and a failed attach
reports (none, none, none). -/
theorem read_console_buffer_restores (os : ConsoleOS) (pid : Int) :
    consoleAfter (read_console_buffer os pid).2 = some (-1) ∧
    (read_console_buffer os pid).2.getLast? = some (ConsoleOp.attachSuccess (-1)) ∧
    (os.attachOk pid = false → (read_console_buffer os pid).1 = (none, none, none)) := by
  by_cases h : os.attachOk pid = true
  · refine ⟨?_, ?_, fun hf => ?_⟩
    · unfold read_console_buffer
      rw [if_pos h]
      rfl
    · unfold read_console_buffer
      rw [if_pos h]
      rfl
    · rw [h] at hf
      cases hf
  · refine ⟨?_, ?_, fun _ => ?_⟩ <;>
      (unfold read_console_buffer; rw [if_neg h]) <;> rfl

def osAttachFails : ConsoleOS := ⟨fun _ => false, "", 0, false, 0, 0, false, []⟩

theorem read_console_buffer_restores_witness :
    osAttachFails.attachOk 5 = false ∧
    (read_console_buffer osAttachFails 5).1 = (none, none, none) :=
  ⟨rfl, (read_console_buffer_restores osAttachFails 5).2.2 rfl⟩

/-- C8: the screen tail read origin: the row and column recombine to the
linear offset (row times width plus column equals the offset), and the
returned content is the last at most 8000 characters of the flat buffer. -/
theorem screen_tail_arithmetic (os : ConsoleOS) (pid : Int)
    (hw : 0 < os.width) (hh : 0 ≤ os.height)
    (hlen : os.buffer.length = (os.width * os.height).toNat)
    (ha : os.attachOk pid = true) (hi : os.infoOk = true) (hr : os.readOk = true) :
    start_y os.width os.height * os.width + start_x os.width os.height =
      start_idx os.width os.height ∧
    (read_console_buffer os pid).1.2.1 =
      some (String.mk (os.buffer.drop (os.buffer.length - 8000))) := by
  have hrecomb : start_y os.width os.height * os.width + start_x os.width os.height =
      start_idx os.width os.height := by
    show start_idx os.width os.height / os.width * os.width +
      start_idx os.width os.height % os.width = start_idx os.width os.height
    rw [mul_comm]
    exact Int.ediv_add_emod _ _
  have hP : (0 : Int) ≤ os.width * os.height := mul_nonneg (le_of_lt hw) hh
  have hidx : (start_idx os.width os.height).toNat = os.buffer.length - 8000 := by
    unfold start_idx read_len
    rw [hlen]
    generalize os.width * os.height = P at hP ⊢
    omega
  refine ⟨hrecomb, ?_⟩
  unfold read_console_buffer
  rw [if_pos ha]
  simp only [hi, hr, if_true]
  rw [hrecomb, hidx]
  rw [show read_len.toNat = 8000 from rfl]
  rw [List.take_of_length_le]
  rw [List.length_drop]
  omega

def osSmall : ConsoleOS := ⟨fun _ => true, "t", 1, true, 2, 3, true, "abcdef".data⟩

theorem screen_tail_arithmetic_witness :
    (0 < osSmall.width ∧ 0 ≤ osSmall.height ∧
      osSmall.buffer.length = (osSmall.width * osSmall.height).toNat ∧
      osSmall.attachOk 7 = true ∧ osSmall.infoOk = true ∧ osSmall.readOk = true) ∧
    (read_console_buffer osSmall 7).1.2.1 =
      some (String.mk (osSmall.buffer.drop (osSmall.buffer.length - 8000))) :=
  ⟨⟨by decide, by decide, by decide, rfl, rfl, rfl⟩,
    (screen_tail_arithmetic osSmall 7 (by decide) (by decide) (by decide) rfl rfl rfl).2⟩

def envFocused : WinEnv := ⟨1, fun _ => "", fun _ => false⟩

/-- C7 counterexample: when the handle is focused, show_notification returns
before logging: the event is not logged, against the claim that the event is
logged regardless of focus state. -/
theorem focused_call_not_logged_cex :
    is_window_active envFocused 1 = true ∧
    show_notification envFocused 1 = ⟨false, false⟩ := by decide

/-- A null handle is never active (line 41 of the script). -/
theorem is_window_active_null (env : WinEnv) : is_window_active env 0 = false := by
  unfold is_window_active
  rw [if_pos rfl]

/-- C7 amended: when the handle is focused the call is suppressed entirely,
including the log; otherwise the event is logged and delivery is delegated.
Logging and delegation always co-occur. -/
theorem show_notification_policy (env : WinEnv) (hwnd : Nat) :
    ((show_notification env hwnd).logged = (show_notification env hwnd).delegated) ∧
    (is_window_active env hwnd = true → show_notification env hwnd = ⟨false, false⟩) ∧
    (is_window_active env hwnd = false → show_notification env hwnd = ⟨true, true⟩) := by
  refine ⟨?_, fun ha => ?_, fun hna => ?_⟩
  · unfold show_notification
    split <;> rfl
  · by_cases hz : hwnd = 0
    · subst hz
      rw [is_window_active_null] at ha
      cases ha
    · unfold show_notification
      rw [if_pos (Bool.and_eq_true _ _ |>.mpr ⟨bne_iff_ne.mpr hz, ha⟩)]
  · unfold show_notification
    have hc : (hwnd != 0 && is_window_active env hwnd) ≠ true := by
      rw [hna, Bool.and_false]
      exact Bool.false_ne_true
    rw [if_neg hc]

def envElse : WinEnv := ⟨2, fun _ => "", fun _ => false⟩

theorem show_notification_policy_witness :
    is_window_active envElse 1 = false ∧ show_notification envElse 1 = ⟨true, true⟩ :=
  ⟨by decide, (show_notification_policy envElse 1).2.2 (by decide)⟩

/-- C4 counterexample: a candidate whose screen content carries a CLI marker
but whose title does not, with an untracked handle, is not promoted, against
the claim that a marker in the content alone suffices. -/
theorem content_marker_no_promotion_cex :
    strContains "✦ gemini" "gemini" = true ∧
    hwndTruthy (some 5) = true ∧
    (some 5 : Option Nat) ∉ ([] : List (Option Nat)) ∧
    discoverStep ⟨10, some "cmd", some "✦ gemini", some 5⟩ [] = false := by decide

/-- C4 amended: a candidate is promoted exactly when its handle is not both
truthy and already tracked, and its title is readable, nonempty and carries a
CLI marker; the screen content is never consulted. -/
theorem promotion_title_only (c : Candidate) (tracked : List (Option Nat)) :
    (discoverStep c tracked = true ↔
      (¬(hwndTruthy c.hwnd = true ∧ tracked.contains c.hwnd = true) ∧
        ∃ t, c.title = some t ∧ t ≠ "" ∧ titleMatches t = true)) ∧
    (∀ content₁ content₂ : String,
      discoverStep ⟨c.pid, c.title, some content₁, c.hwnd⟩ tracked =
      discoverStep ⟨c.pid, c.title, some content₂, c.hwnd⟩ tracked) := by
  refine ⟨?_, fun content₁ content₂ => rfl⟩
  unfold discoverStep
  by_cases hd : (hwndTruthy c.hwnd && tracked.contains c.hwnd) = true
  · rw [if_pos hd]
    rw [Bool.and_eq_true] at hd
    constructor
    · intro h
      cases h
    · rintro ⟨hn, _⟩
      exact absurd hd hn
  · rw [if_neg hd]
    rw [Bool.and_eq_true] at hd
    cases ht : c.title with
    | none =>
      constructor
      · intro h
        cases h
      · rintro ⟨_, t, hts, _⟩
        cases hts
    | some t =>
      show ((!(t == "")) && titleMatches t) = true ↔ _
      rw [Bool.and_eq_true, Bool.not_eq_true', beq_eq_false_iff_ne]
      constructor
      · rintro ⟨h1, h2⟩
        exact ⟨hd, t, rfl, h1, h2⟩
      · rintro ⟨_, t', hts, h1, h2⟩
        cases hts
        exact ⟨h1, h2⟩

theorem promotion_title_only_witness :
    discoverStep ⟨11, some "npx gemini", some "", some 4⟩ [] = true :=
  (promotion_title_only ⟨11, some "npx gemini", some "", some 4⟩ []).1.mpr
    ⟨by decide, "npx gemini", rfl, by decide, by decide⟩

/-- C9: deduplication only applies to truthy handles: the tracked set built
from the registry contains only truthy handles, a marker-titled candidate with
an absent or zero handle is always promoted, and two targets with handle 0 can
coexist in the registry after one discovery pass. -/
theorem absent_handles_not_deduped :
    (∀ (targets : List (Nat × TargetInfo)) (h : Option Nat),
      h ∈ tracked_hwnds targets → hwndTruthy h = true) ∧
    (∀ (c : Candidate) (tracked : List (Option Nat)) (t : String),
      c.title = some t → t ≠ "" → titleMatches t = true → hwndTruthy c.hwnd = false →
      discoverStep c tracked = true) ∧
    (discoverPass 0 []
      [⟨1, some "gemini", some "", some 0⟩, ⟨2, some "gemini", some "", some 0⟩] =
      [(1, ⟨CState.Unknown, some 0⟩), (2, ⟨CState.Unknown, some 0⟩)]) := by
  refine ⟨?_, ?_, by decide⟩
  · intro targets h hm
    unfold tracked_hwnds at hm
    exact (List.mem_filter.mp hm).2
  · intro c tracked t ht hne hmatch htr
    unfold discoverStep
    have hcond : (hwndTruthy c.hwnd && tracked.contains c.hwnd) ≠ true := by
      rw [htr, Bool.false_and]
      exact Bool.false_ne_true
    rw [if_neg hcond, ht]
    show ((!(t == "")) && titleMatches t) = true
    rw [Bool.and_eq_true, Bool.not_eq_true', beq_eq_false_iff_ne]
    exact ⟨hne, hmatch⟩

theorem absent_handles_not_deduped_witness :
    (⟨3, some "gemini", some "", some 0⟩ : Candidate).title = some "gemini" ∧
    discoverStep ⟨3, some "gemini", some "", some 0⟩ [some 7] = true :=
  ⟨rfl, absent_handles_not_deduped.2.1 ⟨3, some "gemini", some "", some 0⟩ [some 7] "gemini"
    rfl (by decide) (by decide) (by decide)⟩

end Watchdog
